import Mathlib

/-!
Verification of the Telegram translation bot (`translation_bot.py`).

The bot's core is a per-chat settings store (a Python dict `group_settings`
keyed by chat id, with enabled-by-default semantics via `.get(chat_id, True)`)
and a message pipeline (`handle_message`) made of guard clauses around an
external detect/translate capability.

The embedding below models:
- the Python dict by an association list with `pyGet` (= `dict.get`) and
  `pySet` (= `dict[k] = v` assignment);
- chat types and chat-member statuses by inductive types;
- the outcomes of the two external calls (`detect`, `translate`) as
  `Option String` parameters: `none` is the failure (exception) outcome,
  `some x` is a successful return of `x`;
- each handler as a pure function from its inputs and the current store to
  the new store together with the outbound reply (`Option String` for the
  pipeline, which may stay silent; `String` for command handlers, which
  always reply on every path the embedding covers).
-/

/-- Python `str.strip()`: drop whitespace from both ends. Modelled on the
character list so that the kernel can evaluate it. -/
def pyStrip (s : String) : String :=
  String.mk (((s.data.dropWhile Char.isWhitespace).reverse.dropWhile Char.isWhitespace).reverse)

/-- Python `len` on a string: number of characters. -/
def pyLen (s : String) : Nat := s.data.length

/-- Python `text.startswith('/')`. -/
def pyStartsWithSlash (s : String) : Bool := s.data.head? == some '/'

/-- Python `str.upper()`. -/
def pyUpper (s : String) : String := String.mk (s.data.map Char.toUpper)

/-- Telegram chat types as discriminated by `update.message.chat.type`. -/
inductive ChatType
  | privateChat
  | group
  | supergroup
  | channel
deriving DecidableEq

/-- Chat-member statuses returned by `get_chat_member`. -/
inductive MemberStatus
  | creator
  | administrator
  | member
  | restricted
  | left
  | kicked
deriving DecidableEq

/-- An inbound message event as read by the handlers: sender bot-flag,
chat type, chat id, optional text, and the transport's forward-origin
metadata (whether the message is a forward originating from a broadcast
channel). -/
structure Msg where
  from_user_is_bot : Bool
  chat_type : ChatType
  chat_id : Int
  text : Option String
  is_channel_forward : Bool
deriving DecidableEq

/-- The settings store `group_settings`: a mapping from chat id to the
translation-enabled flag, modelled as an association list. -/
abbrev GroupSettings := List (Int × Bool)

/-- Python `dict.get k` (returning `None` when absent): first entry with
the given key. -/
def pyGet : List (Int × Bool) → Int → Option Bool
  | [], _ => none
  | (k, v) :: rest, key => if k = key then some v else pyGet rest key

/-- Python `dict[k] = v`: replace the entry if the key is present,
append it otherwise. -/
def pySet : List (Int × Bool) → Int → Bool → List (Int × Bool)
  | [], key, val => [(key, val)]
  | (k, v) :: rest, key, val =>
      if k = key then (key, val) :: rest else (k, v) :: pySet rest key val

/-- Lookup in the static language-name table (`dict.get` over
string keys). -/
def strGet : List (String × String) → String → Option String
  | [], _ => none
  | (k, v) :: rest, key => if k = key then some v else strGet rest key

/-- `self.supported_languages`: the static code → display-name table. -/
def supported_languages : List (String × String) :=
  [("bn", "Bengali"), ("hi", "Hindi"), ("ar", "Arabic"), ("es", "Spanish"),
   ("fr", "French"), ("de", "German"), ("pt", "Portuguese"), ("ru", "Russian"),
   ("ja", "Japanese"), ("ko", "Korean"), ("zh", "Chinese"), ("it", "Italian"),
   ("ur", "Urdu"), ("ta", "Tamil"), ("te", "Telugu"), ("mr", "Marathi")]

/-- `group_settings.get(chat_id, True)`: the stored flag, enabled by
default when the chat id has no entry. -/
def is_enabled (settings : GroupSettings) (chat_id : Int) : Bool :=
  (pyGet settings chat_id).getD true

/-- `chat.type in ['group', 'supergroup']`. -/
def isGroupChat : ChatType → Bool
  | ChatType.group => true
  | ChatType.supergroup => true
  | _ => false

/-- `member.status in ['administrator', 'creator']`. -/
def isAdminStatus : MemberStatus → Bool
  | MemberStatus.administrator => true
  | MemberStatus.creator => true
  | _ => false

/-- The store-level toggle step of `toggle_translation` (lines 96-98):
read the current flag with default `True`, store its negation, and report
the stored value. -/
def toggle (settings : GroupSettings) (chat_id : Int) : GroupSettings × Bool :=
  let current := is_enabled settings chat_id
  (pySet settings chat_id (!current), !current)

/-- The `/toggle` handler `toggle_translation`, abstracted over the outcome
of the `get_chat_member` lookup (`none` = the lookup raised). Returns the
new store and the reply text. -/
def toggle_translation (chat_type : ChatType) (chat_id : Int)
    (memberLookup : Option MemberStatus) (settings : GroupSettings) :
    GroupSettings × String :=
  if isGroupChat chat_type = false then
    (settings, "❌ This command works only in groups!")
  else
    match memberLookup with
    | none => (settings, "❌ Error checking permissions!")
    | some st =>
      if isAdminStatus st = false then
        (settings, "❌ Only admins can use this command!")
      else
        let r := toggle settings chat_id
        let new_status := if r.2 then "✅ ENABLED" else "❌ DISABLED"
        (r.1, "🔄 Translation is now **" ++ new_status ++ "** for this group!")

/-- The settings report template of `show_settings`. -/
def settings_text (status : String) : String :=
  "\n⚙️ **Translation Settings**\n\n**Status:** " ++ status ++
    "\n**Target Language:** English 🇺🇸\n**Supported Languages:** 100+\n\nUse /toggle to enable/disable translation\n            "

/-- The `/settings` handler `show_settings`: refuses outside groups,
otherwise reports the stored status. The store is never written. -/
def show_settings (chat_type : ChatType) (chat_id : Int)
    (settings : GroupSettings) : GroupSettings × String :=
  if isGroupChat chat_type = false then
    (settings, "❌ This command works only in groups!")
  else
    let status := if is_enabled settings chat_id then "✅ ENABLED" else "❌ DISABLED"
    (settings, settings_text status)

/-- The reply composed at lines 181-185: header, "lang → English" label,
translated text, and the echoed original. -/
def mkResponse (lang_name translated text : String) : String :=
  "**Translation** 🌐\n\n" ++ "**" ++ lang_name ++ " → English:**\n" ++
    "`" ++ translated ++ "`\n\n" ++ "_Original:_ `" ++ text ++ "`"

/-- The translation step (lines 169-187): `none` translator outcome is a
raised exception, an empty or unchanged result is discarded, otherwise the
formatted reply is produced with the display name resolved through
`supported_languages` (fallback: upper-cased code). -/
def translate_step (text detected : String) (tr : Option String) :
    Option String :=
  match tr with
  | none => none
  | some translated =>
    if translated = "" ∨ translated = text then none
    else
      some (mkResponse ((strGet supported_languages detected).getD (pyUpper detected))
        translated text)

/-- The reply decision of `handle_message` (lines 134-190): the guard
sequence (bot sender, disabled group, missing/short text, command prefix,
length cap, English detection) followed by the translation step. `det` is
the outcome of the detect call (`none` = it raised, in which case the code
continues with `detected = "unknown"`). -/
def handle_message_reply (m : Msg) (settings : GroupSettings)
    (det tr : Option String) : Option String :=
  if m.from_user_is_bot then none
  else if isGroupChat m.chat_type && !(is_enabled settings m.chat_id) then none
  else
    match m.text with
    | none => none
    | some text =>
      if pyLen (pyStrip text) < 2 then none
      else if pyStartsWithSlash text then none
      else if 500 < pyLen text then none
      else
        match det with
        | some d => if d = "en" then none else translate_step text d tr
        | none => translate_step text ("unknown") tr

/-- `handle_message` as a state transformer: the handler never writes the
store, so the store component is returned unchanged alongside the optional
reply. -/
def handle_message (m : Msg) (settings : GroupSettings)
    (det tr : Option String) : GroupSettings × Option String :=
  (settings, handle_message_reply m settings det tr)

/-! ### Store lemmas -/

theorem pyGet_pySet_same (s : List (Int × Bool)) (k : Int) (v : Bool) :
    pyGet (pySet s k v) k = some v := by
  induction s with
  | nil => simp [pyGet, pySet]
  | cons head tail ih =>
    obtain ⟨k0, v0⟩ := head
    by_cases h : k0 = k
    · simp [pyGet, pySet, h]
    · simp [pyGet, pySet, h, ih]

theorem pyGet_pySet_other (s : List (Int × Bool)) (k k1 : Int) (v : Bool)
    (h : k1 ≠ k) : pyGet (pySet s k v) k1 = pyGet s k1 := by
  have h2 : ¬(k = k1) := fun hh => h (Eq.symm hh)
  induction s with
  | nil => simp [pyGet, pySet, h2]
  | cons head tail ih =>
    obtain ⟨k0, v0⟩ := head
    by_cases h0 : k0 = k
    · subst h0
      simp [pyGet, pySet, h2]
    · simp [pyGet, pySet, h0, ih]

theorem is_enabled_pySet_same (s : GroupSettings) (k : Int) (v : Bool) :
    is_enabled (pySet s k v) k = v := by
  simp [is_enabled, pyGet_pySet_same]

/-- The pipeline reply depends on the store only through the enabled flag
of the message's own chat. -/
theorem handle_message_reply_congr (m : Msg) (s s1 : GroupSettings)
    (det tr : Option String)
    (h : is_enabled s m.chat_id = is_enabled s1 m.chat_id) :
    handle_message_reply m s det tr = handle_message_reply m s1 det tr := by
  unfold handle_message_reply
  rw [h]

/-- A concrete eligible inbound message: French text in group chat 0,
from a human sender, not a channel forward. -/
def msgBonjour : Msg := ⟨false, ChatType.group, 0, some ("Bonjour le monde"), false⟩

/-- A concrete inbound message that is a forward originating from a
broadcast channel, with otherwise eligible French text, in group chat 2. -/
def msgForwarded : Msg := ⟨false, ChatType.group, 2, some ("Bonjour le monde"), true⟩

/-- Replace a message's chat type, keeping every other field. -/
def setChatType (m : Msg) (ct : ChatType) : Msg :=
  ⟨m.from_user_is_bot, ct, m.chat_id, m.text, m.is_channel_forward⟩

/-- Replace a message's channel-forward flag, keeping every other field. -/
def setForward (m : Msg) (b : Bool) : Msg :=
  ⟨m.from_user_is_bot, m.chat_type, m.chat_id, m.text, b⟩

/-! ### Claims -/

/-- Claim C2: for every chat id and settings-store state, a single
`toggle` stores and returns the negation of the current `is_enabled`
value, and toggling twice restores the original `is_enabled` value. -/
theorem toggle_involution (s : GroupSettings) (c : Int) :
    (toggle s c).2 = !(is_enabled s c)
    ∧ pyGet (toggle s c).1 c = some (!(is_enabled s c))
    ∧ is_enabled (toggle (toggle s c).1 c).1 c = is_enabled s c := by
  refine ⟨rfl, pyGet_pySet_same .., ?_⟩
  simp [toggle, is_enabled_pySet_same, Bool.not_not]

/-- Claim C3: a chat id with no entry in the store (never toggled) is
enabled: `is_enabled` is `true`, and at both points where the store is
consulted — the pipeline's scope check and the settings command — the
behaviour is the same as with a stored `true`. -/
theorem default_enabled (s : GroupSettings) (c : Int) (m : Msg)
    (det tr : Option String) (ct : ChatType)
    (hnone : pyGet s c = none) (hm : m.chat_id = c) :
    is_enabled s c = true
    ∧ (handle_message m s det tr).2 = (handle_message m (pySet s c true) det tr).2
    ∧ (show_settings ct c s).2 = (show_settings ct c (pySet s c true)).2 := by
  have h1 : is_enabled s c = true := by simp [is_enabled, hnone]
  refine ⟨h1, ?_, ?_⟩
  · simp only [handle_message]
    apply handle_message_reply_congr
    rw [hm, h1, is_enabled_pySet_same]
  · unfold show_settings
    by_cases hc : isGroupChat ct = false <;> simp [hc, is_enabled_pySet_same, h1]

/-- Witness for C3 at a concrete input: chat 0 absent from the store
`[(5, false)]`. -/
theorem default_enabled_witness :
    pyGet [((5 : Int), false)] 0 = none
    ∧ (is_enabled [((5 : Int), false)] 0 = true
      ∧ (handle_message msgBonjour [((5 : Int), false)] (some ("fr")) (some ("Hello world"))).2
          = (handle_message msgBonjour (pySet [((5 : Int), false)] 0 true) (some ("fr")) (some ("Hello world"))).2
      ∧ (show_settings ChatType.group 0 [((5 : Int), false)]).2
          = (show_settings ChatType.group 0 (pySet [((5 : Int), false)] 0 true)).2) :=
  ⟨by decide, default_enabled _ 0 msgBonjour _ _ ChatType.group (by decide) rfl⟩

/-- Claim C8: every unsuccessful `/toggle` invocation — outside a
group/supergroup, membership lookup error, or non-admin invoker — sends
the corresponding fixed reply and leaves the settings store unchanged. -/
theorem toggle_failure_replies (ct ct2 : ChatType) (chat_id : Int)
    (lookup : Option MemberStatus) (st : MemberStatus) (s : GroupSettings)
    (hct : isGroupChat ct = false) (hct2 : isGroupChat ct2 = true)
    (hst : isAdminStatus st = false) :
    toggle_translation ct chat_id lookup s = (s, "❌ This command works only in groups!")
    ∧ toggle_translation ct2 chat_id none s = (s, "❌ Error checking permissions!")
    ∧ toggle_translation ct2 chat_id (some st) s = (s, "❌ Only admins can use this command!") := by
  refine ⟨?_, ?_, ?_⟩ <;> simp [toggle_translation, hct, hct2, hst]

/-- Witness for C8 at concrete inputs: private chat, supergroup with a
failed lookup, supergroup with a plain member. -/
theorem toggle_failure_replies_witness :
    isGroupChat ChatType.privateChat = false
    ∧ isGroupChat ChatType.supergroup = true
    ∧ isAdminStatus MemberStatus.member = false
    ∧ (toggle_translation ChatType.privateChat 5 (some MemberStatus.creator) [((5 : Int), false)]
        = ([((5 : Int), false)], "❌ This command works only in groups!")
      ∧ toggle_translation ChatType.supergroup 5 none [((5 : Int), false)]
        = ([((5 : Int), false)], "❌ Error checking permissions!")
      ∧ toggle_translation ChatType.supergroup 5 (some MemberStatus.member) [((5 : Int), false)]
        = ([((5 : Int), false)], "❌ Only admins can use this command!")) :=
  ⟨rfl, rfl, rfl, toggle_failure_replies _ _ 5 _ _ _ rfl rfl rfl⟩

/-- Claim C9 counterexample: a settings-read (`/settings` in group 7 with
an empty store) does NOT create an entry for the chat — the store is
returned unchanged and chat 7 still has no entry, contradicting "created
implicitly on ... the first settings-read". -/
theorem settings_read_creates_no_entry :
    (show_settings ChatType.group 7 []).1 = []
    ∧ pyGet (show_settings ChatType.group 7 []).1 7 = none :=
  ⟨rfl, rfl⟩

/-- Claim C9 (amended): a chat id's entry is created implicitly on the
first toggle (not on a settings-read); it is mutated only by the toggle
operation — the settings command and the message pipeline leave the store
unchanged — and no operation ever deletes an entry (toggle preserves all
other chats' entries and leaves the toggled chat with an entry). -/
theorem store_lifecycle (s : GroupSettings) (c c1 : Int) (ct : ChatType)
    (m : Msg) (det tr : Option String) (h : c1 ≠ c) :
    pyGet (toggle s c).1 c = some (!(is_enabled s c))
    ∧ pyGet (toggle s c).1 c1 = pyGet s c1
    ∧ (show_settings ct c s).1 = s
    ∧ (handle_message m s det tr).1 = s := by
  refine ⟨pyGet_pySet_same .., pyGet_pySet_other _ _ _ _ h, ?_, rfl⟩
  unfold show_settings
  by_cases hc : isGroupChat ct = false <;> simp [hc]

/-- Witness for C9 (amended) at concrete inputs: toggling chat 1 in the
empty store, reading settings for chat 1, piping a message through. -/
theorem store_lifecycle_witness :
    (2 : Int) ≠ 1
    ∧ (pyGet (toggle [] 1).1 1 = some (!(is_enabled [] 1))
      ∧ pyGet (toggle [] 1).1 2 = pyGet [] 2
      ∧ (show_settings ChatType.group 1 []).1 = []
      ∧ (handle_message msgBonjour [] (some ("fr")) (some ("Hello world"))).1 = []) :=
  ⟨by decide, store_lifecycle [] 1 2 ChatType.group msgBonjour _ _ (by decide)⟩

/-- Claim C10: `/settings` outside a group/supergroup replies with the
fixed refusal message, reports no status, leaves the store unchanged, and
does not depend on the store's contents. -/
theorem settings_nongroup_refusal (ct : ChatType) (c : Int)
    (s s1 : GroupSettings) (h : isGroupChat ct = false) :
    show_settings ct c s = (s, "❌ This command works only in groups!")
    ∧ (show_settings ct c s).2 = (show_settings ct c s1).2 := by
  constructor <;> simp [show_settings, h]

/-- Witness for C10 at a concrete input: `/settings` in a private chat
with a store that has chat 3 disabled. -/
theorem settings_nongroup_refusal_witness :
    isGroupChat ChatType.privateChat = false
    ∧ (show_settings ChatType.privateChat 3 [((3 : Int), false)]
        = ([((3 : Int), false)], "❌ This command works only in groups!")
      ∧ (show_settings ChatType.privateChat 3 [((3 : Int), false)]).2
        = (show_settings ChatType.privateChat 3 []).2) :=
  ⟨rfl, settings_nongroup_refusal ChatType.privateChat 3 _ [] rfl⟩

/-- Claim C1: the pipeline sends exactly one reply — the result is `some` —
precisely when every eligibility guard passes (human sender, scope check,
text present with trimmed length at least 2, not a command, at most 500
characters, detection did not return English) and the translation call
returned a non-empty result different from the original text; in every
other case it sends none. -/
theorem pipeline_reply_iff (m : Msg) (s : GroupSettings) (det tr : Option String) :
    ((handle_message m s det tr).2).isSome = true ↔
      ∃ text t1, m.text = some text ∧ tr = some t1
        ∧ m.from_user_is_bot = false
        ∧ (isGroupChat m.chat_type = true → is_enabled s m.chat_id = true)
        ∧ 2 ≤ pyLen (pyStrip text)
        ∧ pyStartsWithSlash text = false
        ∧ pyLen text ≤ 500
        ∧ det ≠ some ("en")
        ∧ t1 ≠ "" ∧ t1 ≠ text := by
  simp only [handle_message]
  unfold handle_message_reply translate_step
  cases hbot : m.from_user_is_bot
  case true => simp
  case false =>
    cases hsc : (isGroupChat m.chat_type && !(is_enabled s m.chat_id))
    case true =>
      simp only [Bool.and_eq_true, Bool.not_eq_true'] at hsc
      simp [hsc.1, hsc.2]
    case false =>
      simp only [Bool.and_eq_false_iff, Bool.not_eq_false'] at hsc
      cases hmt : m.text
      case none => simp
      case some text =>
        by_cases h1 : pyLen (pyStrip text) < 2
        · have h1n : ¬ 2 ≤ pyLen (pyStrip text) := by omega
          simp [h1, h1n]
        · have h1y : 2 ≤ pyLen (pyStrip text) := by omega
          cases h2 : pyStartsWithSlash text with
          | true => simp [h1, h2]
          | false =>
            by_cases h3 : 500 < pyLen text
            · have h3n : ¬ pyLen text ≤ 500 := by omega
              simp [h1, h3, h3n]
            · have h3y : pyLen text ≤ 500 := by omega
              cases det with
              | none =>
                cases tr with
                | none => simp [h1, h3]
                | some t1 =>
                  by_cases h4 : t1 = ""
                  · simp [h1, h3, h4]
                  · by_cases h5 : t1 = text
                    · simp [h1, h3, h4, h5]
                    · rcases hsc with hsc | hsc <;>
                        simp [h1, h2, h3, h1y, h3y, h4, h5, hsc]
              | some d =>
                by_cases hd : d = "en"
                · simp [h1, h3, hd]
                · cases tr with
                  | none => simp [h1, h3, hd]
                  | some t1 =>
                    by_cases h4 : t1 = ""
                    · simp [h1, h3, hd, h4]
                    · by_cases h5 : t1 = text
                      · simp [h1, h3, hd, h4, h5]
                      · rcases hsc with hsc | hsc <;>
                          simp [h1, h2, h3, h1y, h3y, hd, h4, h5, hsc]

/-- Witness for C1 at a concrete input: the French message in an enabled
group, with successful detection and translation, gets a reply. -/
theorem pipeline_reply_iff_witness :
    ((handle_message msgBonjour [] (some ("fr")) (some ("Hello world"))).2).isSome = true :=
  (pipeline_reply_iff msgBonjour [] (some ("fr")) (some ("Hello world"))).mpr
    ⟨"Bonjour le monde", "Hello world", rfl, rfl, rfl, fun _ => rfl,
      by decide, by decide, by decide, by decide, by decide, by decide⟩

/-- Witness for C2 at a concrete input: chat 9 in the empty store. -/
theorem toggle_involution_witness :
    (toggle [] 9).2 = !(is_enabled [] 9)
    ∧ pyGet (toggle [] 9).1 9 = some (!(is_enabled [] 9))
    ∧ is_enabled (toggle (toggle [] 9).1 9).1 9 = is_enabled [] 9 :=
  toggle_involution [] 9

/-- Claim C4: in a group or supergroup whose setting is disabled the
pipeline replies nothing, while in a private chat the pipeline's reply
does not depend on the stored setting at all. -/
theorem scope_filter_correct (m : Msg) (s s1 : GroupSettings)
    (det tr : Option String)
    (hg : isGroupChat m.chat_type = true) (hd : is_enabled s m.chat_id = false) :
    (handle_message m s det tr).2 = none
    ∧ (handle_message (setChatType m ChatType.privateChat) s det tr).2
        = (handle_message (setChatType m ChatType.privateChat) s1 det tr).2 := by
  constructor
  · simp only [handle_message]
    unfold handle_message_reply
    rw [hg, hd]
    simp
  · simp only [handle_message]
    unfold handle_message_reply
    simp [setChatType, isGroupChat]

/-- Witness for C4 at a concrete input: the French message's group chat 0
disabled in the store. -/
theorem scope_filter_correct_witness :
    isGroupChat msgBonjour.chat_type = true
    ∧ is_enabled [((0 : Int), false)] msgBonjour.chat_id = false
    ∧ ((handle_message msgBonjour [((0 : Int), false)] (some ("fr")) (some ("Hello world"))).2 = none
      ∧ (handle_message (setChatType msgBonjour ChatType.privateChat) [((0 : Int), false)] (some ("fr")) (some ("Hello world"))).2
        = (handle_message (setChatType msgBonjour ChatType.privateChat) [] (some ("fr")) (some ("Hello world"))).2) :=
  ⟨rfl, by decide,
    scope_filter_correct msgBonjour _ [] _ _ rfl (by decide)⟩

/-- Claim C5 counterexample: a forward originating from a broadcast
channel with eligible text is NOT discarded — the pipeline translates it
and replies, contradicting the claimed channel-forward filter. -/
theorem channel_forward_translated :
    msgForwarded.is_channel_forward = true
    ∧ (handle_message msgForwarded [] (some ("fr")) (some ("Hello world"))).2
      = some (mkResponse ("French") ("Hello world") ("Bonjour le monde")) :=
  ⟨rfl, by decide⟩

/-- Claim C5 (amended): the pipeline applies no channel-forward filter:
its behaviour is entirely independent of the forward-origin metadata — a
message forwarded from a broadcast channel is handled exactly like the
same message without the forward origin. -/
theorem forward_origin_ignored (m : Msg) (b : Bool) (s : GroupSettings)
    (det tr : Option String) :
    handle_message (setForward m b) s det tr = handle_message m s det tr := by
  cases m
  rfl

/-- Claim C6: whenever the translation call fails, or returns an empty
result or a result identical to the original text, the pipeline replies
nothing. -/
theorem translation_failure_silent (m : Msg) (s : GroupSettings)
    (det tr : Option String)
    (h : tr = none ∨ tr = some ("") ∨ tr = m.text) :
    (handle_message m s det tr).2 = none := by
  have key : ∀ text d, m.text = some text → translate_step text d tr = none := by
    intro text d htext
    rcases h with h | h | h
    · simp [translate_step, h]
    · simp [translate_step, h]
    · rw [h, htext]
      simp [translate_step]
  simp only [handle_message]
  unfold handle_message_reply
  cases hbot : m.from_user_is_bot
  case true => simp
  case false =>
    cases hsc : (isGroupChat m.chat_type && !(is_enabled s m.chat_id))
    case true => simp
    case false =>
      cases hmt : m.text
      case none => simp
      case some text =>
        by_cases h1 : pyLen (pyStrip text) < 2
        · simp [h1]
        · cases h2 : pyStartsWithSlash text with
          | true => simp [h1, h2]
          | false =>
            by_cases h3 : 500 < pyLen text
            · simp [h1, h2, h3]
            · cases det with
              | none => simp [h1, h2, h3, key text _ hmt]
              | some d =>
                by_cases hd : d = "en"
                · simp [h1, h2, h3, hd]
                · simp [h1, h2, h3, hd, key text d hmt]

/-- Witness for C6 at a concrete input: the translator returns the
original text unchanged (a no-op translation). -/
theorem translation_failure_silent_witness :
    ((some ("Bonjour le monde") : Option String) = none
      ∨ (some ("Bonjour le monde") : Option String) = some ("")
      ∨ (some ("Bonjour le monde") : Option String) = msgBonjour.text)
    ∧ (handle_message msgBonjour [] (some ("fr")) (some ("Bonjour le monde"))).2 = none :=
  ⟨Or.inr (Or.inr rfl),
    translation_failure_silent msgBonjour [] _ _ (Or.inr (Or.inr rfl))⟩

/-- Claim C7: when the detection call fails the pipeline continues with
`detected = "unknown"` instead of aborting; a successful non-no-op
translation is still replied, and since `"unknown"` is not in the static
language table the label falls back to its upper-cased form `"UNKNOWN"`. -/
theorem detection_failure_unknown_label (m : Msg) (s : GroupSettings)
    (text t1 : String)
    (hbot : m.from_user_is_bot = false)
    (hscope : isGroupChat m.chat_type = true → is_enabled s m.chat_id = true)
    (htext : m.text = some text)
    (hlen : 2 ≤ pyLen (pyStrip text))
    (hcmd : pyStartsWithSlash text = false)
    (hmax : pyLen text ≤ 500)
    (ht1 : t1 ≠ "") (hne : t1 ≠ text) :
    strGet supported_languages ("unknown") = none
    ∧ pyUpper ("unknown") = "UNKNOWN"
    ∧ (handle_message m s none (some t1)).2 = some (mkResponse ("UNKNOWN") t1 text) := by
  refine ⟨by decide, by decide, ?_⟩
  have hsc : (isGroupChat m.chat_type && !(is_enabled s m.chat_id)) = false := by
    cases hgc : isGroupChat m.chat_type
    · simp
    · simp [hscope hgc]
  have h1n : ¬ pyLen (pyStrip text) < 2 := by omega
  have h3n : ¬ 500 < pyLen text := by omega
  simp only [handle_message]
  unfold handle_message_reply
  rw [hbot, hsc, htext]
  simp only [Bool.false_eq_true, if_false]
  simp [h1n, hcmd, h3n, translate_step, ht1, hne]
  have hu : (strGet supported_languages ("unknown")).getD (pyUpper ("unknown")) = "UNKNOWN" := by decide
  rw [hu]

/-- Witness for C7 at a concrete input: detection raised on the French
message, translation still succeeded. -/
theorem detection_failure_unknown_label_witness :
    msgBonjour.from_user_is_bot = false
    ∧ (isGroupChat msgBonjour.chat_type = true → is_enabled [] msgBonjour.chat_id = true)
    ∧ msgBonjour.text = some ("Bonjour le monde")
    ∧ 2 ≤ pyLen (pyStrip ("Bonjour le monde"))
    ∧ pyStartsWithSlash ("Bonjour le monde") = false
    ∧ pyLen ("Bonjour le monde") ≤ 500
    ∧ ("Hello world" : String) ≠ ""
    ∧ ("Hello world" : String) ≠ "Bonjour le monde"
    ∧ (strGet supported_languages ("unknown") = none
      ∧ pyUpper ("unknown") = "UNKNOWN"
      ∧ (handle_message msgBonjour [] none (some ("Hello world"))).2
        = some (mkResponse ("UNKNOWN") ("Hello world") ("Bonjour le monde"))) :=
  ⟨rfl, fun _ => rfl, rfl, by decide, by decide, by decide, by decide, by decide,
    detection_failure_unknown_label msgBonjour [] _ _ rfl (fun _ => rfl) rfl
      (by decide) (by decide) (by decide) (by decide) (by decide)⟩

/-- Witness for C5 (amended) at a concrete input. -/
theorem forward_origin_ignored_witness :
    handle_message (setForward msgBonjour true) [] (some ("fr")) (some ("Hello world"))
      = handle_message msgBonjour [] (some ("fr")) (some ("Hello world")) :=
  forward_origin_ignored msgBonjour true [] _ _
